import Mathlib

/-!
Shallow embedding of the wallet-app record repository
(src/js/storage.js, together with the bulk-visibility handlers and the
export handler of the enhanced app file).

Modelling conventions:
* Timestamps are natural numbers (ISO-8601 strings are order-isomorphic to
  instants).  Every distinct clock read in the source (`new Date()`) is an
  explicit parameter, so theorems can state monotonic-clock hypotheses.
* `generateId` (time + randomness) is an environment input: operations take
  the generated id (or an indexed supply of ids) as a parameter.
* JS objects are open; the fields the repository ever touches are modelled
  as structure fields.  A field that JS code tests for truthiness with `||`
  is either an `Option` (timestamps, metadata) or uses the falsy encoding
  `""` for an absent string and `false` for an absent boolean, which agrees
  with every use site in the source.
* `localStorage` is modelled as a two-key store; the persisted collection
  blob may be absent, malformed (unparseable JSON) or a parsed list.
  Capacity failure (`QuotaExceededError`) is not modelled: writes succeed,
  matching the claims under study, none of which concerns the quota path.
-/

namespace WalletApp

/-- The `metadata` bag of a card.  `saveCard`/`importData` fill
`fileSize, compressed, version(, imported)`; the export handler produces a
bag holding only `fileSize` and `lastModified`, hence every field other
than `fileSize` is optional. -/
structure Metadata where
  fileSize : Nat
  compressed : Option Bool
  version : Option String
  imported : Option Bool
  lastModifiedM : Option Nat
deriving DecidableEq

/-- One card object, as stored in the collection blob or carried by an
export/import document.  `""` encodes an absent string field and `false`
an absent boolean, matching the source's `||`/truthiness tests;
`dateAdded` is the legacy timestamp field read by `cleanupStorage`. -/
structure Card where
  id : String
  name : String
  imageData : String
  createdAt : Option Nat
  lastModified : Option Nat
  dateAdded : Option Nat
  hidden : Bool
  metadata : Option Metadata
deriving DecidableEq

/-- The persisted collection blob under the `walletCards` key:
never written, written but unparseable, or a parsed list of cards. -/
inductive Blob where
  | absent : Blob
  | malformed : Blob
  | good : List Card → Blob
deriving DecidableEq

/-- The two persisted keys the repository uses: the collection blob and the
`walletLastUpdate` marker. -/
structure Store where
  walletCards : Blob
  walletLastUpdate : Option Nat
deriving DecidableEq

def emptyStore : Store := ⟨Blob.absent, none⟩

/-- `getAllCards` (storage.js:35): `JSON.parse` of an absent key yields
`null`, defaulted to `[]`; a parse error is caught and recovered to `[]`. -/
def getAllCards (s : Store) : List Card :=
  match s.walletCards with
  | Blob.good cards => cards
  | _ => []

/-- `Array.prototype.find` by id, as used by `getCardById`. -/
def findCard (cardId : String) : List Card → Option Card
  | [] => none
  | c :: cs => if c.id = cardId then some c else findCard cardId cs

/-- `Array.prototype.findIndex` by id, as used by `updateCard`. -/
def findIndexId (cardId : String) : List Card → Option Nat
  | [] => none
  | c :: cs => if c.id = cardId then some 0 else (findIndexId cardId cs).map (· + 1)

/-- `getCardById` (storage.js:44). -/
def getCardById (cardId : String) (s : Store) : Option Card :=
  findCard cardId (getAllCards s)

/-- `saveCard` (storage.js:3-33).  `freshId` is the value `generateId()`
returned; `tCreate`, `tMod`, `tMark` are the three `new Date()` reads (for
`createdAt`, `lastModified` and the `walletLastUpdate` marker, in program
order).  Returns the new store and the created card. -/
def saveCard (freshId : String) (tCreate tMod tMark : Nat)
    (name imageData : String) (s : Store) : Store × Card :=
  let cards := getAllCards s
  let newCard : Card :=
    { id := freshId
      name := name
      imageData := imageData
      createdAt := some tCreate
      lastModified := some tMod
      dateAdded := none
      hidden := false
      metadata := some ⟨imageData.length, some true, some "2.0", none, none⟩ }
  (⟨Blob.good (cards ++ [newCard]), some tMark⟩, newCard)

/-- `updateCard` (storage.js:49-68): look up by id; if found, refresh
`lastModified` (clock read `tMod`), overwrite in place, persist the blob
and the marker (clock read `tMark`) and return `true`; otherwise return
`false` without writing. -/
def updateCard (tMod tMark : Nat) (updatedCard : Card) (s : Store) : Store × Bool :=
  let cards := getAllCards s
  match findIndexId updatedCard.id cards with
  | some i =>
      (⟨Blob.good (cards.set i { updatedCard with lastModified := some tMod }), some tMark⟩, true)
  | none => (s, false)

/-- `removeCard` (storage.js:70-76): persist the filtered collection and
return `true`.  The `walletLastUpdate` marker is NOT written. -/
def removeCard (cardId : String) (s : Store) : Store × Bool :=
  let cards := getAllCards s
  (⟨Blob.good (cards.filter (fun c => c.id ≠ cardId)), s.walletLastUpdate⟩, true)

/-- `toggleCard` (storage.js:78-84): read by id, flip `hidden`, delegate to
`updateCard`; no-op when the id is absent. -/
def toggleCard (tMod tMark : Nat) (cardId : String) (s : Store) : Store :=
  match getCardById cardId s with
  | some c => (updateCard tMod tMark { c with hidden := !c.hidden } s).1
  | none => s

/-- `cleanupStorage` (storage.js:91-109).  `oneYearAgo` is the computed
cutoff instant.  The filter reads the legacy `dateAdded` field; a card
without it yields an invalid date, whose comparison is `false`.  Writes
back only when the count strictly decreased; the marker is NOT written. -/
def cleanupStorage (oneYearAgo : Nat) (s : Store) : Store :=
  let cards := getAllCards s
  let recentCards := cards.filter (fun c =>
    match c.dateAdded with
    | some t => decide (oneYearAgo < t)
    | none => false)
  if recentCards.length < cards.length then
    ⟨Blob.good recentCards, s.walletLastUpdate⟩
  else s

/-- The validation filter of `importData` (storage.js:158-163): `name` and
`imageData` must both be present non-empty strings. -/
def validCard (c : Card) : Bool :=
  c.name != "" && c.imageData != ""

/-- One step of the `.map` in `importData` (storage.js:170-182): spread the
original card, backfilling `id`, `createdAt`, `lastModified`, `hidden` and
`metadata` exactly as the `||` chains do. -/
def processCard (newId : String) (now : Nat) (c : Card) : Card :=
  { c with
    id := if c.id = "" then newId else c.id
    createdAt := some ((c.createdAt.orElse fun _ => c.dateAdded).getD now)
    lastModified := some ((c.lastModified.orElse fun _ => c.createdAt).getD now)
    hidden := c.hidden
    metadata := some (c.metadata.getD ⟨c.imageData.length, some true, some "2.0", some true, none⟩) }

/-- The indexed `.map` over the validated cards; `ids i` is the value
`generateId()` would return for the i-th card needing a fresh id. -/
def processCards (ids : Nat → String) (now : Nat) : Nat → List Card → List Card
  | _, [] => []
  | i, c :: cs => processCard (ids i) now c :: processCards ids now (i + 1) cs

/-- The two `throw new Error(...)` cases of `importData`. -/
inductive ImportError where
  | invalidDataFormat : ImportError
  | noValidCards : ImportError
deriving DecidableEq

/-- The export document shape produced by the export handler and consumed
by `importData`. -/
structure SnapshotDocument where
  version : String
  exportDate : Nat
  cardCount : Nat
  cards : List Card
deriving DecidableEq

/-- `importData` (storage.js:153-194).  `none` for the document models a
missing/non-array `cards` field.  On success the processed cards REPLACE
the stored collection (`setItem` of `processedCards` alone), the marker is
written, and the count of processed cards is returned.  The previous store
is read nowhere. -/
def importData (ids : Nat → String) (now tMark : Nat)
    (doc : Option SnapshotDocument) (_s : Store) : Except ImportError (Store × Nat) :=
  match doc with
  | none => Except.error ImportError.invalidDataFormat
  | some d =>
      let validCards := d.cards.filter validCard
      if validCards.length = 0 then Except.error ImportError.noValidCards
      else
        let processedCards := processCards ids now 0 validCards
        Except.ok (⟨Blob.good processedCards, some tMark⟩, processedCards.length)

/-- The store after a call to `importData`, under JS exception semantics:
a thrown error leaves the store untouched (both throws happen before any
write). -/
def importFinalStore (ids : Nat → String) (now tMark : Nat)
    (doc : Option SnapshotDocument) (s : Store) : Store :=
  match importData ids now tMark doc s with
  | Except.ok (s', _) => s'
  | Except.error _ => s

/-- One exported card (part_003:394-406, `handleExport`): `id`, `name`,
`hidden`, `createdAt` always present (`createdAt` backfilled from `now`);
`imageData` only under `includeImages`; a `{fileSize, lastModified}`
metadata bag only under `includeMetadata`. -/
def exportCard (includeImages includeMetadata : Bool) (now : Nat) (c : Card) : Card :=
  { id := c.id
    name := c.name
    imageData := if includeImages then c.imageData else ""
    createdAt := some (c.createdAt.getD now)
    lastModified := none
    dateAdded := none
    hidden := c.hidden
    metadata :=
      if includeMetadata then
        some ⟨if c.imageData = "" then 0 else c.imageData.length, none, none, none,
              c.lastModified.orElse fun _ => c.createdAt⟩
      else none }

/-- `handleExport` (part_003:385-419), the document-building part: a
versioned snapshot of the current collection. -/
def handleExport (includeImages includeMetadata : Bool) (now : Nat) (s : Store) :
    SnapshotDocument :=
  let cards := getAllCards s
  { version := "2.0"
    exportDate := now
    cardCount := cards.length
    cards := cards.map (exportCard includeImages includeMetadata now) }

/-- One iteration of the `forEach` in `showAllCards`/`hideAllCards`
(app.js:141-157): set `hidden` on the (stale) card object and call
`updateCard`; the accumulator also counts collection-blob writes
(`updateCard` writes the blob exactly when it returns `true`). -/
def bulkStep (tMod tMark : Nat) (v : Bool) (acc : Store × Nat) (c : Card) : Store × Nat :=
  let r := updateCard tMod tMark { c with hidden := v } acc.1
  (r.1, acc.2 + if r.2 then 1 else 0)

/-- `showAllCards` (`v = false`) / `hideAllCards` (`v = true`)
(app.js:141-157): read the collection once, then one `updateCard` — hence
one read-modify-write of the blob — per card.  Returns the final store and
the number of collection-blob writes performed. -/
def bulkSetVisibility (tMod tMark : Nat) (v : Bool) (s : Store) : Store × Nat :=
  (getAllCards s).foldl (bulkStep tMod tMark v) (s, 0)

/-- What one successful `updateCard` inside the bulk handlers stores for a
card `c`: `hidden` set to `v` and `lastModified` refreshed. -/
def setVis (v : Bool) (tMod : Nat) (c : Card) : Card :=
  { c with hidden := v, lastModified := some tMod }

/-- The timestamp invariant of the data model: whenever both timestamps are
present, `createdAt ≤ lastModified`. -/
def tsOK (r : Card) : Bool :=
  match r.createdAt, r.lastModified with
  | some c, some m => decide (c ≤ m)
  | _, _ => true

/-- The collection obtained by exporting `cards` (both options on), then
importing the resulting document into an empty store; on an import error
the store is left untouched (empty). -/
def c1final (cards : List Card) (u : Option Nat) (ids : Nat → String)
    (nowE nowI tMark : Nat) : List Card :=
  getAllCards (importFinalStore ids nowI tMark
    (some (handleExport true true nowE ⟨Blob.good cards, u⟩)) emptyStore)

/- Concrete instances used by witnesses and counterexamples. -/

def c1cardA : Card := ⟨"idA", "Visa", "imgA", some 1, some 1, none, false, none⟩

def c1cardB : Card := ⟨"idB", "Amex", "imgB", some 2, some 2, none, true, none⟩

/-- A store holding one card created through `saveCard` at time 1000. -/
def c2store : Store := (saveCard "a1" 1000 1000 1000 "Visa" "img" emptyStore).1

def c3oldCard : Card := ⟨"old1", "Old", "imgO", some 1, some 1, none, false, none⟩

def c3store : Store := ⟨Blob.good [c3oldCard], some 1⟩

def c3doc : SnapshotDocument :=
  ⟨"2.0", 5, 1, [⟨"new1", "New", "imgN", some 2, some 2, none, false, none⟩]⟩

def c4card : Card := ⟨"carried", "A", "x", none, none, none, false, none⟩

def c4doc : SnapshotDocument := ⟨"2.0", 0, 1, [c4card]⟩

def c4store : Store := importFinalStore (fun _ => "fresh") 5 6 (some c4doc) emptyStore

def c5store : Store :=
  ⟨Blob.good [⟨"a", "A", "x", some 1, some 1, none, false, none⟩,
              ⟨"b", "B", "y", some 1, some 1, none, false, none⟩], some 1⟩

def c6rmcard : Card := ⟨"a", "Visa", "img", some 5, some 5, none, false, none⟩

def c6rmstore : Store := ⟨Blob.good [c6rmcard], some 5⟩

def c6upd : Card := ⟨"a", "Visa", "img", some 5, some 5, none, true, none⟩

def c6doc : SnapshotDocument := ⟨"2.0", 0, 1, [⟨"", "A", "x", none, none, none, false, none⟩]⟩

def c6importStore : Store := importFinalStore (fun _ => "g") 9 10 (some c6doc) emptyStore

/-- An import document carrying `createdAt = 100` and `lastModified = 50`. -/
def c7doc : SnapshotDocument :=
  ⟨"2.0", 0, 1, [⟨"", "A", "x", some 100, some 50, none, false, none⟩]⟩

def c7store : Store := importFinalStore (fun _ => "f0") 200 201 (some c7doc) emptyStore

def c7mutStore : Store := ⟨Blob.good [⟨"a", "V", "i", some 3, some 3, none, false, none⟩], some 3⟩

def c7updCard : Card := ⟨"a", "V", "i", some 3, some 4, none, true, none⟩

def c8card : Card := ⟨"zzz", "N", "D", none, none, none, false, none⟩

def c8store : Store := ⟨Blob.good [⟨"a", "Visa", "img", some 5, some 5, none, false, none⟩], some 1⟩

def c10store : Store := ⟨Blob.good [⟨"a", "Visa", "img", some 5, some 5, none, false, none⟩], some 1⟩

/-! ## Helper lemmas -/

theorem findIndexId_eq_none (cid : String) :
    ∀ l : List Card, (∀ c ∈ l, c.id ≠ cid) → findIndexId cid l = none := by
  intro l
  induction l with
  | nil => intro _; rfl
  | cons c cs ih =>
      intro h
      have hc : c.id ≠ cid := h c (by simp)
      have hrest := ih fun x hx => h x (by simp [hx])
      simp [findIndexId, hc, hrest]

theorem findCard_mem (cid : String) :
    ∀ l : List Card, ∀ c : Card, findCard cid l = some c → c ∈ l := by
  intro l
  induction l with
  | nil => intro c h; exact absurd h (by simp [findCard])
  | cons x xs ih =>
      intro c h
      by_cases hx : x.id = cid
      · simp [findCard, hx] at h
        simp [h]
      · simp [findCard, hx] at h
        exact List.mem_cons_of_mem _ (ih c h)

theorem findCard_append_right (cid : String) (l₂ : List Card) :
    ∀ l₁ : List Card, (∀ c ∈ l₁, c.id ≠ cid) →
      findCard cid (l₁ ++ l₂) = findCard cid l₂ := by
  intro l₁
  induction l₁ with
  | nil => intro _; rfl
  | cons x xs ih =>
      intro h
      have hx : x.id ≠ cid := h x (by simp)
      have hrest := ih fun c hc => h c (by simp [hc])
      simp [findCard, hx, hrest]

theorem processCards_length (ids : Nat → String) (now : Nat) :
    ∀ (l : List Card) (i : Nat), (processCards ids now i l).length = l.length := by
  intro l
  induction l with
  | nil => intro i; rfl
  | cons c cs ih => intro i; simp [processCards, ih]

theorem processCards_proj (ids : Nat → String) (now : Nat) :
    ∀ (l : List Card) (i : Nat),
      (processCards ids now i l).map (fun c => (c.name, c.imageData))
        = l.map fun c => (c.name, c.imageData) := by
  intro l
  induction l with
  | nil => intro i; rfl
  | cons c cs ih => intro i; simp [processCards, processCard, ih]

theorem processCards_id_mem (ids : Nat → String) (now : Nat) :
    ∀ (l : List Card) (i : Nat) (c : Card), c ∈ l → c.id ≠ "" →
      c.id ∈ (processCards ids now i l).map Card.id := by
  intro l
  induction l with
  | nil => intro i c hc _; simp at hc
  | cons x xs ih =>
      intro i c hc hne
      rcases List.mem_cons.mp hc with hq | hmem
      · subst hq
        simp [processCards, processCard, hne]
      · simp only [processCards, List.map_cons]
        exact List.mem_cons_of_mem _ (ih (i + 1) c hmem hne)

/-- A successful `updateCard` preserves the timestamp invariant, provided
the incoming card's `createdAt` (when present) does not lie in the future
of the `lastModified` clock read. -/
theorem updateCard_preserves_tsOK (tM tU : Nat) (uc : Card) (s : Store)
    (hinv : ∀ r ∈ getAllCards s, tsOK r = true)
    (hca : ∀ c, uc.createdAt = some c → c ≤ tM) :
    ∀ r ∈ getAllCards (updateCard tM tU uc s).1, tsOK r = true := by
  intro r hr
  cases hidx : findIndexId uc.id (getAllCards s) with
  | none =>
      have hu : updateCard tM tU uc s = (s, false) := by simp [updateCard, hidx]
      rw [hu] at hr
      exact hinv r hr
  | some i =>
      have hu : (updateCard tM tU uc s).1
          = ⟨Blob.good ((getAllCards s).set i { uc with lastModified := some tM }), some tU⟩ := by
        simp [updateCard, hidx]
      rw [hu] at hr
      have hr' : r ∈ (getAllCards s).set i { uc with lastModified := some tM } := hr
      rcases List.mem_or_eq_of_mem_set hr' with hmem | heq
      · exact hinv r hmem
      · subst heq
        cases hca' : uc.createdAt with
        | none => simp [tsOK, hca']
        | some c =>
            simp [tsOK, hca', decide_eq_true_eq]
            exact hca c hca'

theorem findIndexId_append_cons_self (cid : String) (c : Card) (rest : List Card)
    (hc : c.id = cid) :
    ∀ pre : List Card, (∀ x ∈ pre, x.id ≠ cid) →
      findIndexId cid (pre ++ c :: rest) = some pre.length := by
  intro pre
  induction pre with
  | nil => intro _; simp [findIndexId, hc]
  | cons p ps ih =>
      intro h
      have hp : p.id ≠ cid := h p (by simp)
      have hr := ih fun x hx => h x (by simp [hx])
      simp [findIndexId, hp, hr]

theorem set_append_cons (x c : Card) :
    ∀ (pre rest : List Card), (pre ++ c :: rest).set pre.length x = pre ++ x :: rest := by
  intro pre
  induction pre with
  | nil => intro rest; rfl
  | cons p ps ih => intro rest; simp [ih]

/-- Fold invariant for the bulk-visibility handlers: with pairwise distinct
ids, each iteration finds its own card right after the already-rewritten
prefix, rewrites it in place, and performs exactly one collection write. -/
theorem bulk_go (tMod tMark : Nat) (v : Bool) :
    ∀ (post pre : List Card) (u : Option Nat) (w : Nat),
      ((pre ++ post).map Card.id).Nodup →
      post.foldl (bulkStep tMod tMark v) (⟨Blob.good (pre.map (setVis v tMod) ++ post), u⟩, w)
        = (⟨Blob.good ((pre ++ post).map (setVis v tMod)),
            if post.isEmpty then u else some tMark⟩, w + post.length) := by
  intro post
  induction post with
  | nil =>
      intro pre u w _
      simp
  | cons c rest ih =>
      intro pre u w h
      have hdisj : ∀ x ∈ pre, x.id ≠ c.id := by
        intro x hx heq
        rw [List.map_append] at h
        have hx' : x.id ∈ pre.map Card.id := List.mem_map_of_mem Card.id hx
        have hc' : c.id ∈ (c :: rest).map Card.id := by simp
        exact (List.nodup_append.mp h).2.2 (heq ▸ hx') hc'
      have hfind : findIndexId c.id (pre.map (setVis v tMod) ++ c :: rest)
          = some ((pre.map (setVis v tMod)).length) := by
        refine findIndexId_append_cons_self c.id c rest rfl (pre.map (setVis v tMod)) ?_
        intro x hx
        rcases List.mem_map.mp hx with ⟨y, hy, rfl⟩
        exact hdisj y hy
      have hupd : updateCard tMod tMark { c with hidden := v }
            ⟨Blob.good (pre.map (setVis v tMod) ++ c :: rest), u⟩
          = (⟨Blob.good (pre.map (setVis v tMod) ++ setVis v tMod c :: rest), some tMark⟩, true) := by
        simp [updateCard, getAllCards, hfind, set_append_cons, setVis]
      have hstep : bulkStep tMod tMark v
            (⟨Blob.good (pre.map (setVis v tMod) ++ c :: rest), u⟩, w) c
          = (⟨Blob.good (pre.map (setVis v tMod) ++ setVis v tMod c :: rest), some tMark⟩, w + 1) := by
        simp [bulkStep, hupd]
      rw [List.foldl_cons, hstep]
      have hre : pre.map (setVis v tMod) ++ setVis v tMod c :: rest
          = (pre ++ [c]).map (setVis v tMod) ++ rest := by simp
      rw [hre]
      have hnd : (((pre ++ [c]) ++ rest).map Card.id).Nodup := by
        rw [List.append_assoc]
        simpa using h
      rw [ih (pre ++ [c]) (some tMark) (w + 1) hnd]
      simp [List.append_assoc]
      omega

/-! ## Claim C2 -/

/-- Claim C2 (code bug): the policy says `evictStale` never removes a
record whose `createdAt` is newer than the cutoff, but `cleanupStorage`
filters on the legacy `dateAdded` field, which the current `saveCard` no
longer writes.  A record created through `saveCard` at time 1000, with the
cutoff at 500 (so the record is strictly newer than the cutoff), is
nevertheless evicted and the collection written back empty. -/
theorem c2_cleanup_evicts_fresh_record :
    ((getAllCards c2store).all fun c => decide (500 < c.createdAt.getD 0)) = true ∧
    (getAllCards c2store).length = 1 ∧
    getAllCards (cleanupStorage 500 c2store) = [] := by
  decide

/-! ## Claim C6 -/

/-- Claim C6 (amended): `saveCard`, a successful `updateCard` (hence also
`toggleCard`) and a successful `importData` refresh the `walletLastUpdate`
marker, but `removeCard` and `cleanupStorage` write the collection blob
without touching the marker. -/
theorem c6_marker_update_policy :
    (∀ (fid : String) (tC tM tU : Nat) (nm im : String) (s : Store),
        ((saveCard fid tC tM tU nm im s).1).walletLastUpdate = some tU)
  ∧ (∀ (tM tU : Nat) (uc : Card) (s : Store), (updateCard tM tU uc s).2 = true →
        ((updateCard tM tU uc s).1).walletLastUpdate = some tU)
  ∧ (∀ (ids : Nat → String) (now tU : Nat) (doc : Option SnapshotDocument)
        (s s' : Store) (k : Nat),
        importData ids now tU doc s = Except.ok (s', k) → s'.walletLastUpdate = some tU)
  ∧ (∀ (cid : String) (s : Store), ((removeCard cid s).1).walletLastUpdate = s.walletLastUpdate)
  ∧ (∀ (cut : Nat) (s : Store), (cleanupStorage cut s).walletLastUpdate = s.walletLastUpdate) := by
  refine ⟨?_, ?_, ?_, ?_, ?_⟩
  · intro fid tC tM tU nm im s; rfl
  · intro tM tU uc s h
    cases hidx : findIndexId uc.id (getAllCards s) with
    | none => simp [updateCard, hidx] at h
    | some i => simp [updateCard, hidx]
  · intro ids now tU doc s s' k h
    cases doc with
    | none => simp [importData] at h
    | some d =>
        by_cases hz : (d.cards.filter validCard).length = 0
        · simp [importData, hz] at h
        · simp only [importData, if_neg hz] at h
          have hp := Except.ok.inj h
          injection hp with h1 h2
          rw [← h1]
  · intro cid s; rfl
  · intro cut s
    simp only [cleanupStorage]
    split <;> rfl

/-- Witness for C6: the marker behaviour evaluated at concrete inputs. -/
theorem c6_marker_update_policy_witness :
    ((saveCard "f" 1 2 3 "N" "D" emptyStore).1).walletLastUpdate = some 3 ∧
    ((updateCard 7 8 c6upd c6rmstore).1).walletLastUpdate = some 8 ∧
    c6importStore.walletLastUpdate = some 10 ∧
    ((removeCard "a" c6rmstore).1).walletLastUpdate = c6rmstore.walletLastUpdate ∧
    (cleanupStorage 500 c6rmstore).walletLastUpdate = c6rmstore.walletLastUpdate :=
  ⟨c6_marker_update_policy.1 "f" 1 2 3 "N" "D" emptyStore,
   c6_marker_update_policy.2.1 7 8 c6upd c6rmstore (by decide),
   c6_marker_update_policy.2.2.1 (fun _ => "g") 9 10 (some c6doc) emptyStore c6importStore 1 (by rfl),
   c6_marker_update_policy.2.2.2.1 "a" c6rmstore,
   c6_marker_update_policy.2.2.2.2 500 c6rmstore⟩

/-- Counterexample for C6 as stated: `removeCard` successfully rewrites the
collection blob (from one card to none) yet leaves the stale marker value 5
in place, so not every successful collection write updates the marker. -/
theorem c6_remove_skips_marker_cex :
    c6rmstore.walletCards = Blob.good [c6rmcard] ∧
    ((removeCard "a" c6rmstore).1).walletCards = Blob.good [] ∧
    c6rmstore.walletLastUpdate = some 5 ∧
    ((removeCard "a" c6rmstore).1).walletLastUpdate = some 5 := by
  decide

/-! ## Claim C3 -/

/-- Claim C3 (amended): `importData` does not append — after a successful
import, the stored collection is exactly the processed validated records
of the document, so its size equals K (not M + K), and the final store is
independent of whatever the store held before. -/
theorem c3_import_replaces_collection (ids : Nat → String) (now tMark : Nat)
    (d : SnapshotDocument) (s : Store)
    (h : (d.cards.filter validCard).length ≠ 0) :
    (getAllCards (importFinalStore ids now tMark (some d) s)).length
        = (d.cards.filter validCard).length ∧
    ∀ s₂ : Store, importFinalStore ids now tMark (some d) s
        = importFinalStore ids now tMark (some d) s₂ := by
  constructor
  · simp [importFinalStore, importData, h, getAllCards, processCards_length]
  · intro s₂
    simp [importFinalStore, importData, h]

/-- Witness for C3: one valid record imported into a store that already
holds one record, and independence from the prior store contents. -/
theorem c3_import_replaces_collection_witness :
    (getAllCards (importFinalStore (fun _ => "g") 9 10 (some c3doc) c3store)).length = 1 ∧
    importFinalStore (fun _ => "g") 9 10 (some c3doc) c3store
      = importFinalStore (fun _ => "g") 9 10 (some c3doc) emptyStore :=
  ⟨(c3_import_replaces_collection (fun _ => "g") 9 10 c3doc c3store (by decide)).1,
   (c3_import_replaces_collection (fun _ => "g") 9 10 c3doc c3store (by decide)).2 emptyStore⟩

/-- Counterexample for C3 as stated: a store with M = 1 record, a document
with K = 1 valid record; after import the collection has 1 record, not
M + K = 2, and the previously stored record is gone. -/
theorem c3_import_not_append_cex :
    (getAllCards c3store).length = 1 ∧
    (getAllCards (importFinalStore (fun _ => "g") 9 10 (some c3doc) c3store)).length = 1 ∧
    decide ((getAllCards (importFinalStore (fun _ => "g") 9 10 (some c3doc) c3store)).length = 2)
      = false ∧
    decide (c3oldCard ∈ getAllCards (importFinalStore (fun _ => "g") 9 10 (some c3doc) c3store))
      = false := by
  decide

/-! ## Claim C4 -/

/-- Claim C4 (amended): on import, a fresh id is generated only for
accepted records that carry no id; a record carrying a non-empty id
retains it — here, every accepted record with a non-empty id sees that
very id appear among the persisted ids. -/
theorem c4_import_id_backfill (ids : Nat → String) (now tMark : Nat)
    (d : SnapshotDocument) (s s' : Store) (k : Nat)
    (h : importData ids now tMark (some d) s = Except.ok (s', k)) :
    ∀ c ∈ d.cards.filter validCard, c.id ≠ "" → c.id ∈ (getAllCards s').map Card.id := by
  by_cases hz : (d.cards.filter validCard).length = 0
  · simp [importData, hz] at h
  · simp only [importData, if_neg hz] at h
    have hp := Except.ok.inj h
    injection hp with h1 h2
    intro c hc hne
    rw [← h1]
    exact processCards_id_mem ids now (d.cards.filter validCard) 0 c hc hne

/-- Witness for C4: the persisted ids after importing `c4doc` contain the
carried id of its single record. -/
theorem c4_import_id_backfill_witness :
    c4card.id ∈ (getAllCards c4store).map Card.id :=
  c4_import_id_backfill (fun _ => "fresh") 5 6 c4doc emptyStore c4store 1 (by rfl)
    c4card (by decide) (by decide)

/-- Counterexample for C4 as stated: the document record carries id
`"carried"`; after import the persisted record still has id `"carried"`,
not a newly generated one. -/
theorem c4_import_retains_carried_id_cex :
    (getAllCards c4store).map Card.id = ["carried"] ∧ (getAllCards c4store).length = 1 := by
  decide

/-! ## Claim C7 -/

/-- Claim C7 (amended): after `create` (given the two clock reads are in
order), after a successful `update` (given the incoming record's
`createdAt` is not in the future) and after `toggleVisibility` (given a
monotonic clock), every record satisfies `createdAt ≤ lastModified`;
`importData`, by contrast, preserves document-carried timestamps and can
persist a violating record (see the counterexample). -/
theorem c7_timestamp_invariant_mutations :
    (∀ (fid : String) (tC tM tU : Nat) (nm im : String) (s : Store),
        tC ≤ tM → (∀ r ∈ getAllCards s, tsOK r = true) →
        ∀ r ∈ getAllCards (saveCard fid tC tM tU nm im s).1, tsOK r = true)
  ∧ (∀ (tM tU : Nat) (uc : Card) (s : Store),
        (∀ r ∈ getAllCards s, tsOK r = true) →
        (∀ c, uc.createdAt = some c → c ≤ tM) →
        ∀ r ∈ getAllCards (updateCard tM tU uc s).1, tsOK r = true)
  ∧ (∀ (tM tU : Nat) (cid : String) (s : Store),
        (∀ r ∈ getAllCards s, tsOK r = true) →
        (∀ r ∈ getAllCards s, ∀ c, r.createdAt = some c → c ≤ tM) →
        ∀ r ∈ getAllCards (toggleCard tM tU cid s), tsOK r = true) := by
  refine ⟨?_, updateCard_preserves_tsOK, ?_⟩
  · intro fid tC tM tU nm im s htc hinv r hr
    have hr' : r ∈ getAllCards s ++
        [⟨fid, nm, im, some tC, some tM, none, false,
          some ⟨im.length, some true, some "2.0", none, none⟩⟩] := hr
    rcases List.mem_append.mp hr' with h1 | h2
    · exact hinv r h1
    · simp only [List.mem_singleton] at h2
      subst h2
      simp [tsOK, decide_eq_true_eq]
      exact htc
  · intro tM tU cid s hinv hca r hr
    cases hfind : getCardById cid s with
    | none =>
        have ht : toggleCard tM tU cid s = s := by simp [toggleCard, hfind]
        rw [ht] at hr
        exact hinv r hr
    | some c =>
        have hmem : c ∈ getAllCards s := findCard_mem cid (getAllCards s) c hfind
        have ht : toggleCard tM tU cid s = (updateCard tM tU { c with hidden := !c.hidden } s).1 := by
          simp [toggleCard, hfind]
        rw [ht] at hr
        exact updateCard_preserves_tsOK tM tU { c with hidden := !c.hidden } s hinv
          (fun c' hc' => hca c hmem c' hc') r hr

/-- Witness for C7: the three mutation paths evaluated on concrete stores:
each resulting collection satisfies the timestamp invariant throughout. -/
theorem c7_timestamp_invariant_mutations_witness :
    ((getAllCards (saveCard "f" 1 2 3 "N" "D" emptyStore).1).all tsOK) = true ∧
    ((getAllCards (updateCard 7 8 c7updCard c7mutStore).1).all tsOK) = true ∧
    ((getAllCards (toggleCard 7 8 "a" c7mutStore)).all tsOK) = true := by
  refine ⟨?_, ?_, ?_⟩
  · rw [List.all_eq_true]
    exact c7_timestamp_invariant_mutations.1 "f" 1 2 3 "N" "D" emptyStore (by decide) (by decide)
  · rw [List.all_eq_true]
    exact c7_timestamp_invariant_mutations.2.1 7 8 c7updCard c7mutStore (by decide)
      (by intro c hc; injection hc with h; omega)
  · rw [List.all_eq_true]
    refine c7_timestamp_invariant_mutations.2.2 7 8 "a" c7mutStore (by decide) ?_
    intro r hr c hc
    have hr' : r ∈ [(⟨"a", "V", "i", some 3, some 3, none, false, none⟩ : Card)] := hr
    simp only [List.mem_singleton] at hr'
    subst hr'
    injection hc with h
    omega

/-- Counterexample for C7 as stated: importing a document whose record
carries `createdAt = 100` and `lastModified = 50` persists a record with
`lastModified < createdAt`. -/
theorem c7_import_breaks_timestamp_cex :
    (getAllCards c7store).length = 1 ∧ ((getAllCards c7store).all tsOK) = false := by
  decide

/-! ## Claim C8 -/

/-- Claim C8: `updateCard` on an id absent from the collection returns
`false` and performs no write: the store is returned unchanged. -/
theorem c8_update_absent_id_noop (tMod tMark : Nat) (uc : Card) (s : Store)
    (h : ∀ c ∈ getAllCards s, c.id ≠ uc.id) :
    updateCard tMod tMark uc s = (s, false) := by
  have hnone := findIndexId_eq_none uc.id (getAllCards s) h
  simp [updateCard, hnone]

/-- Witness for C8 at a concrete store and a card with an absent id. -/
theorem c8_update_absent_id_noop_witness :
    updateCard 9 10 c8card c8store = (c8store, false) :=
  c8_update_absent_id_noop 9 10 c8card c8store (by decide)

/-! ## Claim C9 -/

/-- Claim C9: `getAllCards` recovers to the empty sequence both when the
persisted blob is absent and when it is malformed; being a total function
of the store, it propagates no error to its caller. -/
theorem c9_readall_recovers (s : Store) :
    (s.walletCards = Blob.absent → getAllCards s = []) ∧
    (s.walletCards = Blob.malformed → getAllCards s = []) := by
  constructor <;> intro h <;> simp [getAllCards, h]

/-- Witness for C9 at an absent and at a malformed blob. -/
theorem c9_readall_recovers_witness :
    getAllCards ⟨Blob.absent, none⟩ = [] ∧ getAllCards ⟨Blob.malformed, some 3⟩ = [] :=
  ⟨(c9_readall_recovers ⟨Blob.absent, none⟩).1 rfl,
   (c9_readall_recovers ⟨Blob.malformed, some 3⟩).2 rfl⟩

/-! ## Claim C5 -/

/-- Claim C5 (amended): the bulk handlers set `hidden` on every record
(for collections with pairwise distinct ids, which the data model
guarantees), but they persist once per record — N collection writes for N
records — not once in total. -/
theorem c5_bulk_visibility_per_record_writes (tMod tMark : Nat) (v : Bool) (s : Store)
    (h : ((getAllCards s).map Card.id).Nodup) :
    (bulkSetVisibility tMod tMark v s).2 = (getAllCards s).length ∧
    (getAllCards (bulkSetVisibility tMod tMark v s).1).length = (getAllCards s).length ∧
    ∀ c ∈ getAllCards (bulkSetVisibility tMod tMark v s).1, c.hidden = v := by
  obtain ⟨blob, u⟩ := s
  cases blob with
  | absent =>
      refine ⟨rfl, rfl, ?_⟩
      intro c hc
      simp [bulkSetVisibility, getAllCards] at hc
  | malformed =>
      refine ⟨rfl, rfl, ?_⟩
      intro c hc
      simp [bulkSetVisibility, getAllCards] at hc
  | good cards =>
      have hbs : bulkSetVisibility tMod tMark v ⟨Blob.good cards, u⟩
          = (⟨Blob.good (cards.map (setVis v tMod)),
              if cards.isEmpty then u else some tMark⟩, 0 + cards.length) :=
        bulk_go tMod tMark v cards [] u 0 (by simpa using h)
      rw [hbs]
      refine ⟨by simp [getAllCards], by simp [getAllCards], ?_⟩
      intro c hc
      have hc' : c ∈ cards.map (setVis v tMod) := hc
      rcases List.mem_map.mp hc' with ⟨y, _, rfl⟩
      rfl

/-- Witness for C5 on a concrete two-card store with distinct ids. -/
theorem c5_bulk_visibility_per_record_writes_witness :
    (bulkSetVisibility 5 6 true c5store).2 = (getAllCards c5store).length ∧
    (getAllCards (bulkSetVisibility 5 6 true c5store).1).length = (getAllCards c5store).length :=
  ⟨(c5_bulk_visibility_per_record_writes 5 6 true c5store (by decide)).1,
   (c5_bulk_visibility_per_record_writes 5 6 true c5store (by decide)).2.1⟩

/-- Counterexample for C5 as stated: on a two-card collection the bulk
handler performs 2 collection writes, not exactly one. -/
theorem c5_bulk_one_write_cex :
    (bulkSetVisibility 5 6 true c5store).2 = 2 ∧
    decide ((bulkSetVisibility 5 6 true c5store).2 = 1) = false ∧
    (getAllCards c5store).length = 2 := by
  decide

/-! ## Claim C10 -/

/-- Claim C10: `saveCard` followed by `getCardById` on the returned
record's id yields a record with exactly the given name and image data and
`hidden = false`, provided the generated id is fresh for the collection. -/
theorem c10_create_then_read (fid : String) (tC tM tU : Nat)
    (nm im : String) (s : Store)
    (_hn : nm ≠ "") (_hi : im ≠ "")
    (hfresh : fid ∉ (getAllCards s).map Card.id) :
    getCardById (saveCard fid tC tM tU nm im s).2.id (saveCard fid tC tM tU nm im s).1
        = some (saveCard fid tC tM tU nm im s).2 ∧
    (saveCard fid tC tM tU nm im s).2.name = nm ∧
    (saveCard fid tC tM tU nm im s).2.imageData = im ∧
    (saveCard fid tC tM tU nm im s).2.hidden = false := by
  refine ⟨?_, rfl, rfl, rfl⟩
  have hpre : ∀ c ∈ getAllCards s, c.id ≠ fid := by
    intro c hc heq
    exact hfresh (heq ▸ List.mem_map_of_mem Card.id hc)
  have h1 := findCard_append_right fid
    [⟨fid, nm, im, some tC, some tM, none, false,
      some ⟨im.length, some true, some "2.0", none, none⟩⟩] (getAllCards s) hpre
  exact h1.trans (by simp [findCard, saveCard])

/-- Witness for C10 on a one-card store and a fresh id. -/
theorem c10_create_then_read_witness :
    getCardById (saveCard "fresh9" 1 2 3 "Amex" "imgZ" c10store).2.id
        (saveCard "fresh9" 1 2 3 "Amex" "imgZ" c10store).1
      = some (saveCard "fresh9" 1 2 3 "Amex" "imgZ" c10store).2 ∧
    (saveCard "fresh9" 1 2 3 "Amex" "imgZ" c10store).2.name = "Amex" ∧
    (saveCard "fresh9" 1 2 3 "Amex" "imgZ" c10store).2.imageData = "imgZ" ∧
    (saveCard "fresh9" 1 2 3 "Amex" "imgZ" c10store).2.hidden = false :=
  c10_create_then_read "fresh9" 1 2 3 "Amex" "imgZ" c10store (by decide) (by decide) (by decide)

/-! ## Claim C1 -/

/-- Claim C1: export with images and metadata, then import into an empty
store: the resulting collection (unchanged-empty when the import errors on
an empty document) has exactly as many records as the original valid
collection and the same sequence — hence the same multiset — of
`(name, imageData)` pairs. -/
theorem c1_export_import_roundtrip (cards : List Card) (u : Option Nat)
    (ids : Nat → String) (nowE nowI tMark : Nat)
    (hvalid : ∀ c ∈ cards, c.name ≠ "" ∧ c.imageData ≠ "") :
    (c1final cards u ids nowE nowI tMark).length = cards.length ∧
    ((c1final cards u ids nowE nowI tMark).map (fun c => (c.name, c.imageData))
        : Multiset (String × String))
      = ((cards.map fun c => (c.name, c.imageData)) : Multiset (String × String)) := by
  have hfilter : (cards.map (exportCard true true nowE)).filter validCard
      = cards.map (exportCard true true nowE) := by
    rw [List.filter_eq_self]
    intro a ha
    rcases List.mem_map.mp ha with ⟨c, hc, rfl⟩
    have hv := hvalid c hc
    simp [validCard, exportCard, bne_iff_ne]
    exact ⟨hv.1, hv.2⟩
  by_cases hnil : cards = []
  · subst hnil
    exact ⟨rfl, rfl⟩
  · have hlen0 : ¬(cards.map (exportCard true true nowE)).length = 0 := by
      rw [List.length_map]
      intro h
      exact hnil (List.length_eq_zero.mp h)
    have hfin : c1final cards u ids nowE nowI tMark
        = processCards ids nowI 0 (cards.map (exportCard true true nowE)) := by
      simp only [c1final, importFinalStore, importData, handleExport, getAllCards]
      rw [hfilter, if_neg hlen0]
    constructor
    · rw [hfin, processCards_length, List.length_map]
    · rw [hfin]
      have hl : (processCards ids nowI 0 (cards.map (exportCard true true nowE))).map
          (fun c => (c.name, c.imageData)) = cards.map fun c => (c.name, c.imageData) := by
        rw [processCards_proj, List.map_map]
        congr 1
      rw [hl]

/-- Witness for C1 on a two-card collection. -/
theorem c1_export_import_roundtrip_witness :
    (c1final [c1cardA, c1cardB] (some 0) (fun _ => "gid") 10 20 21).length = 2 ∧
    ((c1final [c1cardA, c1cardB] (some 0) (fun _ => "gid") 10 20 21).map
        (fun c => (c.name, c.imageData)) : Multiset (String × String))
      = (([c1cardA, c1cardB].map fun c => (c.name, c.imageData))
          : Multiset (String × String)) :=
  c1_export_import_roundtrip [c1cardA, c1cardB] (some 0) (fun _ => "gid") 10 20 21 (by decide)

end WalletApp
